import Mathlib

/-!
Shallow embedding of the `PipelineRun` component of the dagit run-monitor
view (source file `PipelineRun.tsx`): the re-execution planner
(`onReexecuteStep`), the failure-event lookup (`onShowStateDetails`), and
the two state-updating render callbacks (dismissing the highlighted error
dialog and applying a step filter).

The data model follows the GraphQL fragment declared in the source:
an execution plan is a list of steps, each step has a key and a list of
inputs, each input has a `dependsOn` step reference carrying the upstream
step's key and its list of declared outputs.
-/

namespace PipelineRun

/-- An output declared by an execution step, as fetched by the fragment
(an output has a name and a type name). -/
structure StepOutput where
  name : String
  typeName : String
deriving Repr, DecidableEq

/-- The `dependsOn` reference of an input: the upstream step's key and all
of the upstream step's declared outputs. -/
structure StepDependsOn where
  key : String
  outputs : List StepOutput
deriving Repr, DecidableEq

/-- One input of an execution step; it carries its `dependsOn` reference. -/
structure StepInput where
  dependsOn : StepDependsOn
deriving Repr, DecidableEq

/-- One step of the execution plan: a key and a list of inputs. -/
structure ExecutionStep where
  key : String
  inputs : List StepInput
deriving Repr, DecidableEq

/-- The execution plan of a run: its steps and the `artifactsPersisted`
flag. -/
structure ExecutionPlan where
  steps : List ExecutionStep
  artifactsPersisted : Bool
deriving Repr, DecidableEq

/-- Error payload of an `ExecutionStepFailureEvent`: message and stack. -/
structure ErrorInfo where
  message : String
  stack : List String
deriving Repr, DecidableEq

/-- A node of `run.logs.nodes`. `onShowStateDetails` inspects only the
`__typename` discriminant and, on failure events, the (nullable) `step`
reference and the error payload; every other event kind is inert here. -/
inductive LogNode where
  | executionStepFailureEvent (step : Option String) (error : ErrorInfo)
  | otherEvent (typename : String)
deriving Repr, DecidableEq

/-- A solid of the pipeline; only its name is fetched. -/
structure Solid where
  name : String
deriving Repr, DecidableEq

/-- The pipeline of a run: its name and its solids. -/
structure Pipeline where
  name : String
  solids : List Solid
deriving Repr, DecidableEq

/-- The `PipelineRunFragment` fields that the handlers read. `config` is
the raw configuration blob; its yaml decoding is an external collaborator
and is carried here undecoded. -/
structure PipelineRunFragment where
  config : String
  runId : String
  mode : String
  pipeline : Pipeline
  logs : List LogNode
  executionPlan : ExecutionPlan
deriving Repr, DecidableEq

/-- Modelled from the spec: `ILogFilter` is declared in
`LogsFilterProvider`, which is not among the source files; per the spec a
`LogFilterSpec` has a text field, a set of levels, and an optional
`sinceStepKey`. -/
structure ILogFilter where
  text : String
  levels : List String
  sinceStepKey : Option String
deriving Repr, DecidableEq

/-- The component's ephemeral state, `IPipelineRunState`. -/
structure IPipelineRunState where
  logsVW : Nat
  logsFilter : ILogFilter
  highlightedError : Option ErrorInfo
deriving Repr, DecidableEq

/-- The `stepOutputHandles` entries pushed by `onReexecuteStep`. -/
structure StepOutputHandle where
  stepKey : String
  outputName : String
deriving Repr, DecidableEq

/-- The `ReexecutionConfig` object built by `onReexecuteStep`. -/
structure ReexecutionConfig where
  previousRunId : String
  stepOutputHandles : List StepOutputHandle
deriving Repr, DecidableEq

/-- The variables handed to the `ReexecuteStep` mutation. -/
structure MutationVariables where
  pipelineName : String
  solidSubset : List String
  config : String
  stepKeys : List String
  reexecutionConfig : ReexecutionConfig
  mode : String
deriving Repr, DecidableEq

/-- Observable outcome of `onReexecuteStep`. The two early `return`s are
the first two constructors; the mutation call with its variables is
`submitted`. `warnedSubmission` is a submission preceded by an
artifacts-not-persisted precondition warning — the source never produces
it (it has no warning call), but the spec-side planner below does, so both
share this codomain. -/
inductive ReexecuteResult where
  | noRun
  | stepNotFound
  | warnedSubmission (vars : MutationVariables)
  | submitted (vars : MutationVariables)
deriving Repr, DecidableEq

/-- The nested `step.inputs.forEach / input.dependsOn.outputs.forEach`
loop of `onReexecuteStep`: for each input, for each output of that
input's dependency, push the handle made of `input.dependsOn.key` and
`outputOfDependentStep.name`, in traversal order. -/
def buildStepOutputHandles (step : ExecutionStep) : List StepOutputHandle :=
  step.inputs.flatMap fun input =>
    input.dependsOn.outputs.map fun outputOfDependentStep =>
      { stepKey := input.dependsOn.key, outputName := outputOfDependentStep.name }

/-- The variables object passed to the mutation call once a step has
been found in the plan. -/
def buildMutationVariables (run : PipelineRunFragment) (stepName : String)
    (step : ExecutionStep) : MutationVariables :=
  { pipelineName := run.pipeline.name
    solidSubset := run.pipeline.solids.map (fun s => s.name)
    config := run.config
    stepKeys := [stepName]
    reexecutionConfig :=
      { previousRunId := run.runId
        stepOutputHandles := buildStepOutputHandles step }
    mode := run.mode }

/-- Translation of `onReexecuteStep`: return early when no run is
loaded; return early when the step key is not found in
`run.executionPlan.steps`; otherwise build the re-execution variables and
submit the mutation. -/
def onReexecuteStep (run : Option PipelineRunFragment) (stepName : String) :
    ReexecuteResult :=
  match run with
  | none => .noRun
  | some r =>
    match r.executionPlan.steps.find? (fun s => s.key == stepName) with
    | none => .stepNotFound
    | some step => .submitted (buildMutationVariables r stepName step)

/-- The `find` predicate of `onShowStateDetails`:
`node.__typename === "ExecutionStepFailureEvent" && node.step != null &&
node.step.name === step`. -/
def isFailureFor (stepName : String) : LogNode → Bool
  | .executionStepFailureEvent (some n) _ => n == stepName
  | _ => false

/-- Translation of `onShowStateDetails`: return early when no run is
loaded; otherwise find the first failure event for the step and, when one
exists, set `highlightedError` to its error payload; otherwise leave
state as is. -/
def onShowStateDetails (run : Option PipelineRunFragment) (stepName : String)
    (st : IPipelineRunState) : IPipelineRunState :=
  match run with
  | none => st
  | some r =>
    match r.logs.find? (isFailureFor stepName) with
    | some (.executionStepFailureEvent _ err) =>
        { st with highlightedError := some err }
    | _ => st

/-- The `onClose` callback of the error dialog: set `highlightedError`
to undefined and nothing else. -/
def onDismissHighlightedError (st : IPipelineRunState) : IPipelineRunState :=
  { st with highlightedError := none }

/-- The `onApplyStepFilter` callback: spread the current `logsFilter`
and overwrite only its text with the step-prefixed search string. -/
def onApplyStepFilter (stepName : String) (st : IPipelineRunState) :
    IPipelineRunState :=
  { st with logsFilter := { st.logsFilter with text := "step:" ++ stepName } }

/-- A copy of `r` with only the `artifactsPersisted` flag of its plan
changed. -/
def withArtifactsPersisted (r : PipelineRunFragment) (b : Bool) :
    PipelineRunFragment :=
  { r with executionPlan := { r.executionPlan with artifactsPersisted := b } }

/-- Modelled from the spec: the planner/facade behaviour required by the
error-handling design — "ArtifactsNotPersistedWarning: re-execution
requested but upstream outputs are not guaranteed durable — request is
still built; facade must flag this to the caller before submission
proceeds." Identical to `onReexecuteStep` except that when
`artifactsPersisted` is false the submission carries the warning. -/
def onReexecuteStepSpec (run : Option PipelineRunFragment) (stepName : String) :
    ReexecuteResult :=
  match run with
  | none => .noRun
  | some r =>
    match r.executionPlan.steps.find? (fun s => s.key == stepName) with
    | none => .stepNotFound
    | some step =>
      if r.executionPlan.artifactsPersisted then
        .submitted (buildMutationVariables r stepName step)
      else
        .warnedSubmission (buildMutationVariables r stepName step)


/-! Concrete fixtures used by the counterexamples and witnesses. -/

/-- A target step with a single input whose dependency declares two
outputs. -/
def stepOneInputTwoOutputs : ExecutionStep :=
  { key := "target"
    inputs := [ { dependsOn := { key := "A"
                                 outputs := [ { name := "result", typeName := "Int" }
                                            , { name := "log", typeName := "String" } ] } } ] }

/-- A run whose plan holds only `stepOneInputTwoOutputs`. -/
def runOneInputTwoOutputs : PipelineRunFragment :=
  { config := "solids: \x7b\x7d"
    runId := "run-1"
    mode := "default"
    pipeline := { name := "pipe", solids := [ { name := "s1" } ] }
    logs := []
    executionPlan := { steps := [stepOneInputTwoOutputs], artifactsPersisted := true } }

/-- A target step with two inputs, depending on distinct upstream steps
with one declared output each. -/
def stepTwoDistinctInputs : ExecutionStep :=
  { key := "target"
    inputs := [ { dependsOn := { key := "A"
                                 outputs := [ { name := "result", typeName := "Int" } ] } }
              , { dependsOn := { key := "B"
                                 outputs := [ { name := "value", typeName := "Int" } ] } } ] }

/-- A run whose plan holds only `stepTwoDistinctInputs`, artifacts
persisted. -/
def runTwoDistinctInputs : PipelineRunFragment :=
  { config := "solids: \x7b\x7d"
    runId := "run-2"
    mode := "default"
    pipeline := { name := "pipe", solids := [ { name := "s1" }, { name := "s2" } ] }
    logs := []
    executionPlan := { steps := [stepTwoDistinctInputs], artifactsPersisted := true } }

/-- A target step with two inputs that depend on the same upstream step
output. -/
def stepSharedDependency : ExecutionStep :=
  { key := "target"
    inputs := [ { dependsOn := { key := "A"
                                 outputs := [ { name := "result", typeName := "Int" } ] } }
              , { dependsOn := { key := "A"
                                 outputs := [ { name := "result", typeName := "Int" } ] } } ] }

/-- A run whose plan holds only `stepSharedDependency`. -/
def runSharedDependency : PipelineRunFragment :=
  { config := "solids: \x7b\x7d"
    runId := "run-4"
    mode := "default"
    pipeline := { name := "pipe", solids := [ { name := "s1" } ] }
    logs := []
    executionPlan := { steps := [stepSharedDependency], artifactsPersisted := true } }

/-- The run `runTwoDistinctInputs` with `artifactsPersisted` set false. -/
def runNotPersisted : PipelineRunFragment :=
  withArtifactsPersisted runTwoDistinctInputs false

/-- A run whose log is a start event followed by a failure event for step
X carrying the boom error payload. -/
def runWithFailure : PipelineRunFragment :=
  { config := "solids: \x7b\x7d"
    runId := "run-6"
    mode := "default"
    pipeline := { name := "pipe", solids := [ { name := "s1" } ] }
    logs := [ .otherEvent "ExecutionStepStartEvent"
            , .executionStepFailureEvent (some "X") { message := "boom", stack := [] } ]
    executionPlan := { steps := [], artifactsPersisted := false } }

/-- An initial component state used by the concrete scenarios. -/
def stInit : IPipelineRunState :=
  { logsVW := 75
    logsFilter := { text := "", levels := ["INFO", "ERROR"], sinceStepKey := none }
    highlightedError := none }

/-! Claim theorems. -/

/-- C1 (counterexample): the claim that `reusedOutputs` holds exactly one
entry per declared input fails: for a target step with one input whose
dependency declares two outputs, the planner records two entries, one per
output of the dependency, so the length differs from the input count. -/
theorem reusedOutputs_length_counterexample :
    onReexecuteStep (some runOneInputTwoOutputs) "target" =
      .submitted (buildMutationVariables runOneInputTwoOutputs "target" stepOneInputTwoOutputs) ∧
    (buildMutationVariables runOneInputTwoOutputs "target"
        stepOneInputTwoOutputs).reexecutionConfig.stepOutputHandles =
      [ { stepKey := "A", outputName := "result" }
      , { stepKey := "A", outputName := "log" } ] ∧
    stepOneInputTwoOutputs.inputs.length = 1 ∧
    (buildMutationVariables runOneInputTwoOutputs "target"
        stepOneInputTwoOutputs).reexecutionConfig.stepOutputHandles.length ≠
      stepOneInputTwoOutputs.inputs.length := by
  decide

/-- C1 (amended): for every run and target step found in the plan, the
planner submits variables whose `stepOutputHandles` hold one entry per
pair of an input and a declared output of that input's dependency: the
length is the sum over inputs of the dependency's output count, and the
entries are exactly the pairs of the dependency key and an output name. -/
theorem reusedOutputs_per_dependency_output
    (r : PipelineRunFragment) (stepName : String) (step : ExecutionStep)
    (hfind : r.executionPlan.steps.find? (fun s => s.key == stepName) = some step) :
    onReexecuteStep (some r) stepName = .submitted (buildMutationVariables r stepName step) ∧
    (buildStepOutputHandles step).length =
      (step.inputs.map fun input => input.dependsOn.outputs.length).sum ∧
    ∀ h : StepOutputHandle, h ∈ buildStepOutputHandles step ↔
      ∃ input ∈ step.inputs, ∃ out ∈ input.dependsOn.outputs,
        h = { stepKey := input.dependsOn.key, outputName := out.name } := by
  refine ⟨by simp [onReexecuteStep, hfind], ?_, ?_⟩
  · simp [buildStepOutputHandles, Function.comp_def, List.length_map]
  · intro h
    simp [buildStepOutputHandles, List.mem_flatMap, List.mem_map, eq_comm]

/-- Witness for C1 (amended) at the one-input, two-output fixture. -/
theorem reusedOutputs_per_dependency_output_witness :
    onReexecuteStep (some runOneInputTwoOutputs) "target" =
      .submitted (buildMutationVariables runOneInputTwoOutputs "target" stepOneInputTwoOutputs) ∧
    (buildStepOutputHandles stepOneInputTwoOutputs).length =
      (stepOneInputTwoOutputs.inputs.map fun input => input.dependsOn.outputs.length).sum :=
  ⟨(reusedOutputs_per_dependency_output runOneInputTwoOutputs "target"
      stepOneInputTwoOutputs (by decide)).1,
   (reusedOutputs_per_dependency_output runOneInputTwoOutputs "target"
      stepOneInputTwoOutputs (by decide)).2.1⟩

/-- C2: `reusedOutputs` is built in input declaration order and, within
each input, in the dependency's output declaration order (entries of an
input list split distribute as an append, a single input contributes its
dependency's outputs mapped in order), and on the two-input fixture with
distinct upstream steps A and B the planner produces exactly the pair of
handles A-result then B-value, of length 2. Determinism holds because the
planner is a pure function of the plan. -/
theorem reusedOutputs_ordering :
    (∀ (key : String) (inputs₁ inputs₂ : List StepInput),
        buildStepOutputHandles { key := key, inputs := inputs₁ ++ inputs₂ } =
          buildStepOutputHandles { key := key, inputs := inputs₁ } ++
            buildStepOutputHandles { key := key, inputs := inputs₂ }) ∧
    (∀ (key : String) (input : StepInput),
        buildStepOutputHandles { key := key, inputs := [input] } =
          input.dependsOn.outputs.map fun out =>
            { stepKey := input.dependsOn.key, outputName := out.name }) ∧
    onReexecuteStep (some runTwoDistinctInputs) "target" =
      .submitted (buildMutationVariables runTwoDistinctInputs "target" stepTwoDistinctInputs) ∧
    (buildMutationVariables runTwoDistinctInputs "target"
        stepTwoDistinctInputs).reexecutionConfig.stepOutputHandles =
      [ { stepKey := "A", outputName := "result" }
      , { stepKey := "B", outputName := "value" } ] ∧
    (buildMutationVariables runTwoDistinctInputs "target"
        stepTwoDistinctInputs).reexecutionConfig.stepOutputHandles.length = 2 := by
  refine ⟨?_, ?_, by decide, by decide, by decide⟩
  · intro key inputs₁ inputs₂
    simp [buildStepOutputHandles]
  · intro key input
    simp [buildStepOutputHandles]

/-- C3: when the target step key matches no step of the plan, the planner
stops at the step-not-found early return: no variables are built and no
mutation is submitted. -/
theorem plan_unknown_step_stepNotFound
    (r : PipelineRunFragment) (stepName : String)
    (habsent : ∀ s ∈ r.executionPlan.steps, s.key ≠ stepName) :
    onReexecuteStep (some r) stepName = .stepNotFound := by
  have hfind : r.executionPlan.steps.find? (fun s => s.key == stepName) = none := by
    rw [List.find?_eq_none]
    intro s hs
    simpa using habsent s hs
  simp [onReexecuteStep, hfind]

/-- Witness for C3 at a key absent from the fixture plan. -/
theorem plan_unknown_step_stepNotFound_witness :
    onReexecuteStep (some runTwoDistinctInputs) "missing" = .stepNotFound :=
  plan_unknown_step_stepNotFound runTwoDistinctInputs "missing" (by decide)

/-- C4: the planner does not deduplicate: on a plan whose target step has
two inputs depending on the same upstream output A-result, the submitted
`stepOutputHandles` contain that pair twice, once per input traversed. -/
theorem reusedOutputs_not_deduplicated :
    onReexecuteStep (some runSharedDependency) "target" =
      .submitted (buildMutationVariables runSharedDependency "target" stepSharedDependency) ∧
    (buildMutationVariables runSharedDependency "target"
        stepSharedDependency).reexecutionConfig.stepOutputHandles =
      [ { stepKey := "A", outputName := "result" }
      , { stepKey := "A", outputName := "result" } ] ∧
    1 < ((buildMutationVariables runSharedDependency "target"
        stepSharedDependency).reexecutionConfig.stepOutputHandles.count
      { stepKey := "A", outputName := "result" }) := by
  decide

/-- C5 (counterexample): on a plan with `artifactsPersisted` false the
source submits exactly the same variables as in the persisted case and
surfaces no precondition warning, diverging from the spec-side planner
`onReexecuteStepSpec` that flags the submission. -/
theorem artifactsPersisted_warning_counterexample :
    runNotPersisted.executionPlan.artifactsPersisted = false ∧
    onReexecuteStep (some runNotPersisted) "target" =
      .submitted (buildMutationVariables runNotPersisted "target" stepTwoDistinctInputs) ∧
    onReexecuteStepSpec (some runNotPersisted) "target" =
      .warnedSubmission (buildMutationVariables runNotPersisted "target" stepTwoDistinctInputs) ∧
    onReexecuteStep (some runNotPersisted) "target" ≠
      onReexecuteStepSpec (some runNotPersisted) "target" := by
  decide

/-- C5 (amended): with the target step found and `artifactsPersisted`
false, the request is still built and submitted exactly as in the
persisted case — the result equals the result on the same run with the
flag set true — and no warning is ever surfaced before submission. -/
theorem reexecute_independent_of_artifactsPersisted
    (r : PipelineRunFragment) (stepName : String) (step : ExecutionStep)
    (hfind : r.executionPlan.steps.find? (fun s => s.key == stepName) = some step)
    (_hflag : r.executionPlan.artifactsPersisted = false) :
    onReexecuteStep (some r) stepName = .submitted (buildMutationVariables r stepName step) ∧
    onReexecuteStep (some (withArtifactsPersisted r true)) stepName =
      .submitted (buildMutationVariables r stepName step) ∧
    ∀ v, onReexecuteStep (some r) stepName ≠ .warnedSubmission v := by
  refine ⟨by simp [onReexecuteStep, hfind], ?_, ?_⟩
  · simp [onReexecuteStep, withArtifactsPersisted, hfind, buildMutationVariables]
  · intro v
    simp [onReexecuteStep, hfind]

/-- Witness for C5 (amended) at the not-persisted fixture. -/
theorem reexecute_independent_of_artifactsPersisted_witness :
    onReexecuteStep (some runNotPersisted) "target" =
      .submitted (buildMutationVariables runNotPersisted "target" stepTwoDistinctInputs) ∧
    onReexecuteStep (some (withArtifactsPersisted runNotPersisted true)) "target" =
      .submitted (buildMutationVariables runNotPersisted "target" stepTwoDistinctInputs) :=
  ⟨(reexecute_independent_of_artifactsPersisted runNotPersisted "target"
      stepTwoDistinctInputs (by decide) (by decide)).1,
   (reexecute_independent_of_artifactsPersisted runNotPersisted "target"
      stepTwoDistinctInputs (by decide) (by decide)).2.1⟩

/-- C6: the error lookup returns the payload of the first failure event
in log order whose step matches the key (first conjunct), leaves state
unchanged when no event matches (second conjunct), and on the concrete
log of a start event followed by a failure for X with message boom it
highlights exactly that payload for key X and leaves state unchanged for
key Y. -/
theorem errorLookup_first_failure :
    (∀ (r : PipelineRunFragment) (key : String) (st : IPipelineRunState)
        (pre post : List LogNode) (err : ErrorInfo),
        r.logs = pre ++ LogNode.executionStepFailureEvent (some key) err :: post →
        (∀ n ∈ pre, isFailureFor key n = false) →
        onShowStateDetails (some r) key st = { st with highlightedError := some err }) ∧
    (∀ (r : PipelineRunFragment) (key : String) (st : IPipelineRunState),
        (∀ n ∈ r.logs, isFailureFor key n = false) →
        onShowStateDetails (some r) key st = st) ∧
    onShowStateDetails (some runWithFailure) "X" stInit =
      { stInit with highlightedError := some { message := "boom", stack := [] } } ∧
    onShowStateDetails (some runWithFailure) "Y" stInit = stInit := by
  refine ⟨?_, ?_, by decide, by decide⟩
  · intro r key st pre post err hlogs hpre
    have hnone : pre.find? (isFailureFor key) = none := by
      rw [List.find?_eq_none]
      intro n hn
      simp [hpre n hn]
    have hfind : r.logs.find? (isFailureFor key) =
        some (LogNode.executionStepFailureEvent (some key) err) := by
      rw [hlogs, List.find?_append, hnone, Option.none_or]
      exact List.find?_cons_of_pos _ (by simp [isFailureFor])
    simp [onShowStateDetails, hfind]
  · intro r key st hall
    have hfind : r.logs.find? (isFailureFor key) = none := by
      rw [List.find?_eq_none]
      intro n hn
      simp [hall n hn]
    simp [onShowStateDetails, hfind]

/-- Witness for C6: the first conjunct applied to the concrete failing
log, and the second applied to a key no event matches. -/
theorem errorLookup_first_failure_witness :
    onShowStateDetails (some runWithFailure) "X" stInit =
      { stInit with highlightedError := some { message := "boom", stack := [] } } ∧
    onShowStateDetails (some runWithFailure) "Z" stInit = stInit :=
  ⟨errorLookup_first_failure.1 runWithFailure "X" stInit
      [LogNode.otherEvent "ExecutionStepStartEvent"] []
      { message := "boom", stack := [] } (by decide) (by decide),
   errorLookup_first_failure.2.1 runWithFailure "Z" stInit (by decide)⟩

/-- C7: whenever the planner submits, the `stepKeys` of the mutation
variables are exactly the singleton list holding the caller-supplied
target step name. -/
theorem request_stepKeys_exactly_target
    (r : PipelineRunFragment) (stepName : String) (step : ExecutionStep)
    (hfind : r.executionPlan.steps.find? (fun s => s.key == stepName) = some step) :
    onReexecuteStep (some r) stepName = .submitted (buildMutationVariables r stepName step) ∧
    (buildMutationVariables r stepName step).stepKeys = [stepName] :=
  ⟨by simp [onReexecuteStep, hfind], rfl⟩

/-- Witness for C7 at the two-input fixture. -/
theorem request_stepKeys_exactly_target_witness :
    onReexecuteStep (some runTwoDistinctInputs) "target" =
      .submitted (buildMutationVariables runTwoDistinctInputs "target" stepTwoDistinctInputs) ∧
    (buildMutationVariables runTwoDistinctInputs "target" stepTwoDistinctInputs).stepKeys =
      ["target"] :=
  request_stepKeys_exactly_target runTwoDistinctInputs "target" stepTwoDistinctInputs (by decide)

/-- C8: dismissing the highlighted error clears exactly the
highlighted-error selection and leaves the filter and the layout split
ratio untouched. -/
theorem dismiss_clears_only_highlightedError (st : IPipelineRunState) :
    (onDismissHighlightedError st).highlightedError = none ∧
    (onDismissHighlightedError st).logsFilter = st.logsFilter ∧
    (onDismissHighlightedError st).logsVW = st.logsVW :=
  ⟨rfl, rfl, rfl⟩

/-- C9: with no run loaded, the re-execution handler stops at its first
early return (nothing is built or submitted) and the error lookup leaves
the component state unchanged. -/
theorem no_run_noop (stepName : String) (st : IPipelineRunState) :
    onReexecuteStep none stepName = ReexecuteResult.noRun ∧
    onShowStateDetails none stepName st = st :=
  ⟨rfl, rfl⟩

/-- C10: applying a step filter rewrites only the text of the filter to
the step-prefixed search string and preserves the other filter fields and
the rest of the component state. -/
theorem applyStepFilter_replaces_only_text (stepName : String) (st : IPipelineRunState) :
    (onApplyStepFilter stepName st).logsFilter.text = "step:" ++ stepName ∧
    (onApplyStepFilter stepName st).logsFilter.levels = st.logsFilter.levels ∧
    (onApplyStepFilter stepName st).logsFilter.sinceStepKey = st.logsFilter.sinceStepKey ∧
    (onApplyStepFilter stepName st).logsVW = st.logsVW ∧
    (onApplyStepFilter stepName st).highlightedError = st.highlightedError :=
  ⟨rfl, rfl, rfl, rfl, rfl⟩

end PipelineRun
